import Mathlib

/-!
Verification of the findruntimeerr analysis engine (scripts/core.py,
scripts/symbol_table.py, scripts/checkers/...) against its natural-language
specification.  Python code is shallowly embedded: machine integers are Int,
dictionaries with fixed keys are structures, fallible external-library calls
(parso parsing, astroid parsing / inference / lookup, filesystem probes) are
oracle fields of a World record, and every try/except of the source becomes a
match on the oracle outcome.
-/

namespace FindRuntimeErr

/-- Single-quote character, used to build message strings that contain
quotes exactly as the Python source formats them. -/
def sq : String := (Char.ofNat 39).toString

/-- Diagnostic record as produced by core.py (the dictionaries appended to
Linter.errors and the syntax-error records): message, line, column, to_line,
end_column, errorType.  The internal companion key field of the source is
always equal to (errorType, line, column, to_line, end_column) of the same
record, so it is derived (diagKey) rather than stored. -/
structure Diag where
  message : String
  line : Int
  column : Int
  to_line : Int
  end_column : Int
  errorType : String
deriving DecidableEq, Repr

/-- Deduplication key of a diagnostic, core.py:136 and core.py:150:
(msg_id, line, col, to_line, end_col). -/
def diagKey (d : Diag) : String × Int × Int × Int × Int :=
  (d.errorType, d.line, d.column, d.to_line, d.end_column)

/-- Guarded append used by both Linter.add_message (core.py:137-138) and
Linter.add_astroid_message (core.py:151-154): the record is appended only
when no existing record carries the same key. -/
def appendDedup (d : Diag) (errs : List Diag) : List Diag :=
  if errs.any (fun e => diagKey e = diagKey d) then errs else errs ++ [d]

/-- Source of position data for Linter.add_message: the node argument is
None (noNode), a node whose start_pos / end_pos are read successfully
(node), or a node whose position access raises, sending the source to the
fallback branch of core.py:139-143 (raises). -/
inductive PosSource where
  | noNode
  | node (sp ep : Int × Int)
  | raises
deriving Repr

/-- Position clamping of core.py:134-135: line = max(1, line),
col = max(0, col), to_line = max(line, to_line),
end_col = max(col + 1, end_col), with the clamped line and col used for the
last two. -/
def clampParso (sp ep : Int × Int) : Int × Int × Int × Int :=
  let line := max 1 sp.1
  let col := max 0 sp.2
  let to_line := max line ep.1
  let end_col := max (col + 1) ep.2
  (line, col, to_line, end_col)

/-- Linter.add_message, core.py:129-143.  A missing node yields the
fallback position (1, 0, 1, 1); a raising node is handled by the except
branch, which appends the same fallback record under the fallback key. -/
def add_message (msg_id : String) (ps : PosSource) (message : String)
    (errs : List Diag) : List Diag :=
  match ps with
  | .noNode => appendDedup ⟨message, 1, 0, 1, 1, msg_id⟩ errs
  | .node sp ep =>
      let (line, col, to_line, end_col) := clampParso sp ep
      appendDedup ⟨message, line, col, to_line, end_col, msg_id⟩ errs
  | .raises => appendDedup ⟨message, 1, 0, 1, 1, msg_id⟩ errs

/-- Position attributes of an astroid node: fromlineno, col_offset,
tolineno, end_col_offset, each possibly None. -/
structure APos where
  fromlineno : Option Int
  col_offset : Option Int
  tolineno : Option Int
  end_col_offset : Option Int
deriving DecidableEq, Repr

/-- Python `v or d` on an optional integer: None and 0 are falsy. -/
def pyOr (v : Option Int) (d : Int) : Int :=
  match v with
  | none => d
  | some x => if x = 0 then d else x

/-- Position source for Linter.add_astroid_message: either the node's four
position attributes are read successfully, or the access raises and the
fallback branch of core.py:155-159 runs. -/
inductive APosSource where
  | pos (p : APos)
  | raises
deriving Repr

/-- Linter.add_astroid_message, core.py:145-159.  Positions default through
Python `or` (core.py:147-148), then receive the same clamps as the parso
variant (core.py:149). -/
def add_astroid_message (msg_id : String) (ps : APosSource) (message : String)
    (errs : List Diag) : List Diag :=
  match ps with
  | .pos p =>
      let line0 := pyOr p.fromlineno 1
      let col0 := pyOr p.col_offset 0
      let to_line0 := pyOr p.tolineno line0
      let end_col0 := pyOr p.end_col_offset (col0 + 1)
      let line := max 1 line0
      let col := max 0 col0
      let to_line := max line to_line0
      let end_col := max (col + 1) end_col0
      appendDedup ⟨message, line, col, to_line, end_col, msg_id⟩ errs
  | .raises => appendDedup ⟨message, 1, 0, 1, 1, msg_id⟩ errs

/-- Position well-formedness invariant claimed for every appended
diagnostic. -/
def posInvariant (d : Diag) : Prop :=
  1 ≤ d.line ∧ 0 ≤ d.column ∧ d.line ≤ d.to_line ∧ d.column + 1 ≤ d.end_column

instance (d : Diag) : Decidable (posInvariant d) := by
  unfold posInvariant; infer_instance

/-- Keys of the collected diagnostics are pairwise distinct. -/
def keysNodup (errs : List Diag) : Prop :=
  (errs.map diagKey).Nodup

instance (errs : List Diag) : Decidable (keysNodup errs) := by
  unfold keysNodup; infer_instance

/-- SymbolType enumeration of symbol_table.py:8-15. -/
inductive SymbolType where
  | VARIABLE
  | FUNCTION
  | CLASS
  | PARAMETER
  | MODULE
  | IMPORTED_NAME
  | BUILTIN
deriving DecidableEq, Repr

/-- Symbol of symbol_table.py:17-26: a bound name with its kind and the
(optional) parso node of its definition.  Definition nodes are abstracted
to an identifier. -/
structure Symbol where
  name : String
  type : SymbolType
  def_node : Option Nat
deriving DecidableEq, Repr

/-- Scope of symbol_table.py:28-61: the defining node is abstracted to an
identifier; symbols is the name-to-symbol mapping (a Python dict, modelled
as an association list whose define overwrites in place); the parent chain
is part of the inductive structure. -/
inductive Scope where
  | root (node : Nat) (symbols : List (String × Symbol))
  | child (node : Nat) (symbols : List (String × Symbol)) (parent : Scope)
deriving DecidableEq, Repr

/-- Local symbols mapping of a scope. -/
def Scope.symbols : Scope → List (String × Symbol)
  | .root _ symbols => symbols
  | .child _ symbols _ => symbols

/-- Parent scope, None at the module scope. -/
def Scope.parent : Scope → Option Scope
  | .root _ _ => none
  | .child _ _ p => some p

/-- Scope.lookup, symbol_table.py:42-61: local mapping first; else the
parent chain when search_parents is set and a parent exists; else a fresh
BUILTIN symbol when hasattr(builtins, name); else None.  The builtins
membership test is the external host-language environment, passed in as a
predicate. -/
def Scope.lookup (builtinsHas : String → Bool) :
    Scope → String → Bool → Option Symbol
  | .root _ syms, name, _ =>
      (match syms.lookup name with
      | some symbol => some symbol
      | none =>
          if builtinsHas name then some ⟨name, .BUILTIN, none⟩ else none)
  | .child _ syms parent, name, search_parents =>
      (match syms.lookup name with
      | some symbol => some symbol
      | none =>
          if search_parents then parent.lookup builtinsHas name true
          else if builtinsHas name then some ⟨name, .BUILTIN, none⟩ else none)

/-- Python constant payload of an astroid Const node.  Floats are not
modelled (no claim involves them); bytes carry their content. -/
inductive PyConst where
  | intv (n : Int)
  | boolv (b : Bool)
  | strv (s : String)
  | bytesv (s : String)
  | nonev
deriving DecidableEq, Repr

/-- View of a Python constant as an int, honouring isinstance(value, int):
bool is a subtype of int in Python, True counting as 1. -/
def pyConstToInt : PyConst → Option Int
  | .intv n => some n
  | .boolv b => some (if b then 1 else 0)
  | _ => none

/-- Python equality on constants (used for dict-key membership): ints and
bools compare numerically, everything else structurally. -/
def pyConstEq (a b : PyConst) : Bool :=
  match pyConstToInt a, pyConstToInt b with
  | some x, some y => x == y
  | _, _ => a == b

/-- Python str() of a constant as used by %-formatting. -/
def pyStrConst : PyConst → String
  | .intv n => toString n
  | .boolv true => "True"
  | .boolv false => "False"
  | .strv s => s
  | .bytesv s => "b" ++ sq ++ s ++ sq
  | .nonev => "None"

/-- Python repr() of a constant (key_error_checker.py:39 formats the key
with repr). -/
def pyReprConst : PyConst → String
  | .strv s => sq ++ s ++ sq
  | c => pyStrConst c

/-- One possible value produced by the astroid inference oracle
(node.infer()).  Dict values carry their literal key nodes (a constant
payload, or none for a non-constant key node); instances carry a display
name and the attribute names resolvable on them. -/
inductive IVal where
  | uninferable
  | constv (c : PyConst)
  | listv (len : Nat)
  | tuplev (len : Nat)
  | dictv (keys : List (Option PyConst))
  | funcv (qname : String) (bound : Bool)
  | classv (qname : String)
  | instv (typeName : String) (attrs : List String)
deriving DecidableEq, Repr

/-- Exception outcome of an external astroid call: the InferenceError the
checkers catch specifically, or any other exception caught by their
generic handlers. -/
inductive PyExc where
  | inferenceError
  | otherExc (msg : String)
deriving DecidableEq, Repr

/-- Outcome of the astroid node.lookup call in the static name checker:
the returned definitions list is nonempty or empty, or the call raises
NotFoundError, or it raises some other exception. -/
inductive LookupOut where
  | found (defsNonempty : Bool)
  | raisesNotFound
  | raisesOther
deriving DecidableEq, Repr

mutual
/-- Astroid AST model.  Expression nodes whose inference is not syntactic
(names, attributes, calls, subscripts, binary operations) carry the result
of the external inference oracle as an annotation; constants and list
literals infer to themselves.  Node kinds cover everything the registered
static checkers and the graph builder dispatch on. -/
inductive ANode where
  | module (body : ANodeList)
  | functionDef (pos : APos) (fname : String) (body : ANodeList)
  | classDef (pos : APos) (cname : String) (body : ANodeList)
  | exprStmt (pos : APos) (value : ANode)
  | assign (pos : APos) (targets : ANodeList) (value : ANode)
  | assignName (pos : APos) (aname : String)
  | nameE (pos : APos) (nid : String) (inf : Except PyExc (List IVal)) (lk : LookupOut)
  | attributeE (pos : APos) (attrname : String) (expr : ANode) (inf : Except PyExc (List IVal))
  | callE (pos : APos) (func : ANode) (args : ANodeList) (inf : Except PyExc (List IVal))
  | subscriptE (pos : APos) (value : ANode) (index : ANode) (inf : Except PyExc (List IVal))
  | binOp (pos : APos) (op : String) (left : ANode) (right : ANode) (inf : Except PyExc (List IVal))
  | constE (pos : APos) (c : PyConst)
  | listLit (pos : APos) (elts : ANodeList)
  | whileE (pos : APos) (test : ANode) (body : ANodeList) (orelse : ANodeList)
  | breakE (pos : APos)
  | passE (pos : APos)
/-- Child list of an astroid node (a mutual inductive so that all
recursion over trees is structural). -/
inductive ANodeList where
  | nil
  | cons (hd : ANode) (tl : ANodeList)
end

/-- Length of a node list. -/
def ANodeList.length : ANodeList → Nat
  | .nil => 0
  | .cons _ tl => 1 + tl.length

/-- Plain-list view of a node list, for non-recursive scans. -/
def ANodeList.toList : ANodeList → List ANode
  | .nil => []
  | .cons hd tl => hd :: tl.toList

/-- Position attributes of a node (the module position is what astroid
reports for a parsed module). -/
def ANode.apos : ANode → APos
  | .module _ => ⟨some 0, some 0, none, none⟩
  | .functionDef p _ _ => p
  | .classDef p _ _ => p
  | .exprStmt p _ => p
  | .assign p _ _ => p
  | .assignName p _ => p
  | .nameE p _ _ _ => p
  | .attributeE p _ _ _ => p
  | .callE p _ _ _ => p
  | .subscriptE p _ _ _ => p
  | .binOp p _ _ _ _ => p
  | .constE p _ => p
  | .listLit p _ => p
  | .whileE p _ _ _ => p
  | .breakE p => p
  | .passE p => p

/-- Inference oracle of a node, list(node.infer(context=None)): literal
constants and list displays infer to themselves; names, attributes, calls,
subscripts and binary operations return their oracle annotation;
statements are never inferred by the checkers. -/
def ANode.inferRes : ANode → Except PyExc (List IVal)
  | .constE _ c => .ok [.constv c]
  | .listLit _ elts => .ok [.listv elts.length]
  | .nameE _ _ inf _ => inf
  | .attributeE _ _ _ inf => inf
  | .callE _ _ _ inf => inf
  | .subscriptE _ _ _ inf => inf
  | .binOp _ _ _ _ inf => inf
  | _ => .ok []

/-- Model of the astroid printer node.as_string() for the node shapes the
checkers format into warning messages; positions and error kinds never
depend on it. -/
def ANode.as_string : ANode → String
  | .nameE _ nid _ _ => nid
  | .constE _ c => pyReprConst c
  | _ => "<expr>"

/-- Result of utils.get_type_astroid: either a genuine type-name string,
or the bound qname method object that getattr(x, ..) returns for scoped
astroid nodes (utils.py:192-196 fetch the qname attribute without calling
it, so functions, classes and instances yield a method object rather than
a string). -/
inductive TypeRes where
  | strName (s : String)
  | methodObj
deriving DecidableEq, Repr

/-- Python type(value).__name__ for a constant payload. -/
def typeNameOfPyConst : PyConst → String
  | .intv _ => "int"
  | .boolv _ => "bool"
  | .strv _ => "str"
  | .bytesv _ => "bytes"
  | .nonev => "NoneType"

/-- Primary-type naming of utils.get_type_astroid lines 189-199 applied to
the first inferred value: instances, classes and functions resolve the
qname attribute of a scoped node, which is a bound method, not a string;
constants report the payload type name; list and tuple nodes fall through
to type(x).__name__. -/
def ivalPrimaryType : IVal → Option TypeRes
  | .instv _ _ => some .methodObj
  | .classv _ => some .methodObj
  | .funcv _ _ => some .methodObj
  | .constv c => some (.strName (typeNameOfPyConst c))
  | .listv _ => some (.strName "List")
  | .tuplev _ => some (.strName "Tuple")
  | .dictv _ => some (.strName "Dict")
  | .uninferable => none

/-- utils.get_type_astroid, utils.py:176-201.  An empty or Uninferable
primary inference falls back to the syntactic class of the node
(utils.py:180-188); inference exceptions yield None. -/
def get_type_astroid (n : ANode) : Option TypeRes :=
  match n.inferRes with
  | .error _ => none
  | .ok vals =>
    match vals with
    | [] => syntacticFallback n
    | v :: _ =>
      if v = .uninferable then syntacticFallback n else ivalPrimaryType v
where
  /-- Syntactic fallback of utils.py:180-188 for the node kinds present in
  the model (Const, List, FunctionDef, ClassDef). -/
  syntacticFallback : ANode → Option TypeRes
  | .constE _ c => some (.strName (typeNameOfPyConst c))
  | .listLit _ _ => some (.strName "list")
  | .functionDef _ _ _ => some (.strName "function")
  | .classDef _ _ _ => some (.strName "type")
  | _ => none

/-- utils.is_compatible_astroid, utils.py:203-226, on the two short type
names already stripped to their last dotted component and lowercased. -/
def is_compatible_core (t1 t2 op : String) : Bool :=
  let numeric := ["int", "float", "complex", "bool"]
  let seqT := ["str", "list", "tuple", "bytes", "bytearray", "range"]
  let setT := ["set", "frozenset"]
  let mapT := ["dict"]
  if numeric.contains t1 && numeric.contains t2
      && ["+", "-", "*", "/", "//", "%", "**", "<", "<=", ">", ">=", "==", "!="].contains op then
    if (t1 == "complex" || t2 == "complex") && ["<", "<=", ">", ">="].contains op then false
    else true
  else if numeric.contains t1 && numeric.contains t2
      && ["int", "bool"].contains t1 && ["int", "bool"].contains t2
      && ["&", "|", "^", "<<", ">>", "~"].contains op then true
  else if seqT.contains t1 && seqT.contains t2 && t1 == t2 && op == "+" then true
  else if seqT.contains t1 && seqT.contains t2
      && ["str", "tuple", "list", "bytes", "bytearray"].contains t1 && t1 == t2
      && ["==", "!=", "<", "<=", ">", ">="].contains op then true
  else if op == "*" && ((seqT.contains t1 && t2 == "int") || (t1 == "int" && seqT.contains t2)) then true
  else if op == "%" && t1 == "str" then true
  else if setT.contains t1 && setT.contains t2
      && ["|", "&", "-", "^", "<=", "<", ">=", ">", "==", "!="].contains op then true
  else if (op == "in" || op == "not in")
      && (seqT.contains t2 || setT.contains t2 || mapT.contains t2) then true
  else if op == "and" || op == "or" then true
  else if op == "not" then true
  else if (op == "+" || op == "-") && numeric.contains t1 then true
  else false

/-- Last dotted component, lowercased: type1_fq.split(chr(46))[-1].lower()
of utils.py:205-206. -/
def lastDottedLower (s : String) : String :=
  ((s.splitOn ".").getLastD s).toLower

/-- utils.is_compatible_astroid on full type names. -/
def is_compatible_astroid (t1fq t2fq op : String) : Bool :=
  is_compatible_core (lastDottedLower t1fq) (lastDottedLower t2fq) op

/-- One syntax error yielded by parso grammar.iter_errors, with its raw
message and start and end positions. -/
structure SynErr where
  message : String
  start_pos : Int × Int
  end_pos : Int × Int
deriving DecidableEq, Repr

/-- One add_message request issued during the realtime parso traversal
(checker findings, internal-checker-error conversions, traversal-error
conversions).  The realtime checkers reach Linter.errors exclusively
through BaseParsoChecker.add_message, which delegates to
Linter.add_message (base_checkers.py:28-33), so the realtime checking
phase is modelled as a deterministic stream of such requests. -/
structure RTAdd where
  msg_id : String
  pos : PosSource
  message : String
deriving Repr

/-- Outcome of astroid.parse in static mode (core.py:266-275): a parsed
tree, a SyntaxError with its msg, lineno and offset, or another
exception. -/
inductive AstroidParseOut where
  | ok (tree : ANode)
  | synErr (msg : String) (lineno offset : Option Int)
  | otherErr (msg : String)

/-- External environment of one analysis call: host-language builtins,
filesystem existence, the parso grammar and parser behaviour on the
analysed source text, the realtime checker stream, and the astroid parse
outcome.  A source text together with the libraries' behaviour on it
determines one World. -/
structure World where
  builtinsHas : String → Bool
  fsExists : String → Bool
  grammarOk : Bool
  parsoParseOk : Bool
  parsoCrashMsg : String
  parsoSyntaxErrs : List SynErr
  rtAdds : List RTAdd
  astroidParse : AstroidParseOut

/-- Attribute resolution oracle, inferred.getattr(attrname): in the model
only instance values expose attributes. -/
def ivalGetattrFound : IVal → String → Bool
  | .instv _ attrs, a => attrs.contains a
  | _, _ => false

/-- Display name recorded in possible_types by the attribute checker
(attribute_error_checker.py:50-52): getattr(x, qname-or-name) on scoped
astroid nodes returns a bound method whose str() is an object repr; the
address component of that repr is abstracted to a deterministic form. -/
def ivalDisplayName : IVal → String
  | .constv _ => "Const"
  | .listv _ => "List"
  | .tuplev _ => "Tuple"
  | .dictv _ => "Dict"
  | .funcv q _ => "<bound method qname of " ++ q ++ ">"
  | .classv q => "<bound method qname of " ++ q ++ ">"
  | .instv tn _ => "<bound method qname of " ++ tn ++ ">"
  | .uninferable => "Uninferable"

/-- Insertion of a string into a sorted list. -/
def insertSortedStr (s : String) : List String → List String
  | [] => [s]
  | t :: ts => if s ≤ t then s :: t :: ts else t :: insertSortedStr s ts

/-- Python sorted() on strings. -/
def sortStrs : List String → List String
  | [] => []
  | s :: ss => insertSortedStr s (sortStrs ss)

/-- StaticNameErrorChecker.check, name_error_checker.py:16-46: skip names
in builtins.__dict__; report E0102 when lookup raises NotFoundError or
returns an empty definitions list; swallow any other lookup exception. -/
def staticNameCheck (w : World) (pos : APos) (nid : String) (lk : LookupOut)
    (errs : List Diag) : List Diag :=
  if w.builtinsHas nid then errs
  else
    match lk with
    | .found true => errs
    | .found false =>
        add_astroid_message "E0102" (.pos pos)
          ("NameError: Name " ++ sq ++ nid ++ sq ++ " is not defined (Static)") errs
    | .raisesNotFound =>
        add_astroid_message "E0102" (.pos pos)
          ("NameError: Name " ++ sq ++ nid ++ sq ++ " is not defined (Static)") errs
    | .raisesOther => errs

/-- StaticTypeErrorChecker.check, type_error_checker.py:16-45: infer both
operand types; when both resolve, consult is_compatible_astroid.  When a
resolved type is the bound qname method rather than a string, the split
call inside is_compatible_astroid raises AttributeError, which the
checker's generic handler swallows. -/
def staticTypeCheck (pos : APos) (op : String) (left right : ANode)
    (errs : List Diag) : List Diag :=
  match get_type_astroid left, get_type_astroid right with
  | some (.strName t1), some (.strName t2) =>
      if is_compatible_astroid t1 t2 op then errs
      else
        add_astroid_message "E0301" (.pos pos)
          ("TypeError: Incompatible types for " ++ sq ++ op ++ sq ++ " operation: "
            ++ t1 ++ " and " ++ t2 ++ " (Static)") errs
  | some _, some _ => errs
  | _, _ => errs

/-- Loop state of the attribute checker: accumulated possible_types (in
encounter order), the has_attribute and none_error_reported flags, and the
error list. -/
structure AttrLoopSt where
  possible : List String
  hasAttr : Bool
  noneReported : Bool
  errs : List Diag

/-- Inferred-value loop of StaticAttributeErrorChecker.check,
attribute_error_checker.py:31-63. -/
def attrLoop (pos : APos) (attrname : String) : List IVal → AttrLoopSt → AttrLoopSt
  | [], st => st
  | v :: vs, st =>
    if v = .uninferable then
      attrLoop pos attrname vs { st with possible := st.possible ++ ["Uninferable"] }
    else if v = .constv .nonev then
      if st.noneReported then attrLoop pos attrname vs st
      else
        attrLoop pos attrname vs
          { st with noneReported := true,
                    errs := add_astroid_message "E0402" (.pos pos)
                      ("AttributeError: " ++ sq ++ "NoneType" ++ sq ++ " object has no attribute "
                        ++ sq ++ attrname ++ sq ++ " (Static)") st.errs }
    else
      let st1 := { st with possible := st.possible ++ [ivalDisplayName v] }
      if ivalGetattrFound v attrname then { st1 with hasAttr := true }
      else attrLoop pos attrname vs st1

/-- StaticAttributeErrorChecker.check, attribute_error_checker.py:15-81. -/
def staticAttributeCheck (pos : APos) (attrname : String) (expr : ANode)
    (errs : List Diag) : List Diag :=
  match expr.inferRes with
  | .error _ => errs
  | .ok [] => errs
  | .ok vals =>
    let st := attrLoop pos attrname vals ⟨[], false, false, errs⟩
    if st.hasAttr || st.noneReported then st.errs
    else
      let types_str :=
        String.intercalate ", " (sortStrs ((st.possible.filter (· ≠ "Uninferable")).eraseDups))
      if types_str = "" then st.errs
      else
        add_astroid_message "E0401" (.pos pos)
          ("AttributeError: Object of type " ++ sq ++ types_str ++ sq
            ++ " has no attribute " ++ sq ++ attrname ++ sq ++ " (Static)") st.errs

/-- Statically known sequence length for the index checker
(index_error_checker.py:27-28): list and tuple element counts, string and
bytes constant lengths. -/
def seqLenOf : IVal → Option Int
  | .listv n => some n
  | .tuplev n => some n
  | .constv (.strv s) => some s.length
  | .constv (.bytesv s) => some s.length
  | _ => none

/-- Constant-integer view of the primary inferred slice value
(index_error_checker.py:22): an astroid Const whose payload is an int,
bools included; the second component is the str() used in the message. -/
def sliceConstInt : IVal → Option (Int × String)
  | .constv c =>
      match pyConstToInt c with
      | some n => some (n, pyStrConst c)
      | none => none
  | _ => none

/-- Value loop of StaticIndexErrorChecker.check,
index_error_checker.py:24-31: the first inferred value of a statically
known length with the index outside [-length, length) reports E0501 and
stops; in-range and length-free values continue. -/
def indexScan (slicePos : APos) (idx : Int) (idxStr : String) :
    List IVal → List Diag → List Diag
  | [], errs => errs
  | v :: vs, errs =>
    if v = .uninferable then indexScan slicePos idx idxStr vs errs
    else
      match seqLenOf v with
      | some len =>
          if ¬ (-len ≤ idx ∧ idx < len) then
            add_astroid_message "E0501" (.pos slicePos)
              ("IndexError: Index " ++ idxStr ++ " is out of range for sequence of length "
                ++ toString len ++ " (Static)") errs
          else indexScan slicePos idx idxStr vs errs
      | none => indexScan slicePos idx idxStr vs errs

/-- StaticIndexErrorChecker.check, index_error_checker.py:15-33. -/
def staticIndexCheck (value idx : ANode) (errs : List Diag) : List Diag :=
  match idx.inferRes with
  | .error _ => errs
  | .ok sliceVals =>
    match sliceVals with
    | [] =>
        add_astroid_message "W0502" (.pos idx.apos)
          ("Potential IndexError: Index " ++ idx.as_string ++ " may be out of range (Static)") errs
    | v0 :: _ =>
      if v0 = .uninferable then
        add_astroid_message "W0502" (.pos idx.apos)
          ("Potential IndexError: Index " ++ idx.as_string ++ " may be out of range (Static)") errs
      else
        match sliceConstInt v0 with
        | none => errs
        | some (index_value, idxStr) =>
          match value.inferRes with
          | .error _ => errs
          | .ok vals => indexScan idx.apos index_value idxStr vals errs

/-- Key extraction for one inferred Dict value
(key_error_checker.py:31-36): all literal keys must be constants for the
membership conclusion to be sound. -/
def dictConstKeys : List (Option PyConst) → Option (List PyConst)
  | [] => some []
  | some c :: ks =>
      match dictConstKeys ks with
      | some cs => some (c :: cs)
      | none => none
  | none :: _ => none

/-- Value loop of StaticKeyErrorChecker.check, key_error_checker.py:28-39. -/
def keyScan (slicePos : APos) (key : PyConst) : List IVal → List Diag → List Diag
  | [], errs => errs
  | v :: vs, errs =>
    match v with
    | .dictv keys =>
        match dictConstKeys keys with
        | some cs =>
            if cs.any (pyConstEq key) then keyScan slicePos key vs errs
            else
              add_astroid_message "E0601" (.pos slicePos)
                ("KeyError: Key " ++ pyReprConst key ++ " not found in dictionary literal (Static)") errs
        | none => keyScan slicePos key vs errs
    | _ => keyScan slicePos key vs errs

/-- StaticKeyErrorChecker.check, key_error_checker.py:15-41. -/
def staticKeyCheck (value idx : ANode) (errs : List Diag) : List Diag :=
  match idx.inferRes with
  | .error _ => errs
  | .ok sliceVals =>
    match sliceVals with
    | [] =>
        match value.inferRes with
        | .error _ => errs
        | .ok vs =>
          if vs.any (fun v => match v with | .dictv _ => true | _ => false) then
            add_astroid_message "W0602" (.pos idx.apos)
              ("Potential KeyError: Key " ++ idx.as_string ++ " may not be found (Static)") errs
          else errs
    | v0 :: _ =>
      if v0 = .uninferable then
        match value.inferRes with
        | .error _ => errs
        | .ok vs =>
          if vs.any (fun v => match v with | .dictv _ => true | _ => false) then
            add_astroid_message "W0602" (.pos idx.apos)
              ("Potential KeyError: Key " ++ idx.as_string ++ " may not be found (Static)") errs
          else errs
      else
        match v0 with
        | .constv c => keyScan idx.apos c
            (match value.inferRes with | .error _ => [] | .ok vs => vs) errs
        | _ => errs

/-- StaticInfiniteLoopChecker.check, infinite_loop_checker.py:11-26: a
while whose test infers primarily to the constant True and whose direct
body statements contain no Break reports W0701 anchored at the test. -/
def staticInfiniteLoopCheck (test : ANode) (body : ANodeList)
    (errs : List Diag) : List Diag :=
  match test.inferRes with
  | .error _ => errs
  | .ok tv =>
    let is_while_true :=
      match tv with
      | .constv (.boolv true) :: _ => true
      | _ => false
    if is_while_true then
      let has_break := body.toList.any (fun n => match n with | .breakE _ => true | _ => false)
      if ¬ has_break then
        add_astroid_message "W0701" (.pos test.apos)
          ("Potential infinite loop: " ++ "while True" ++ " without a reachable "
            ++ "break" ++ " (Static)") errs
      else errs
    else errs

/-- StaticFileNotFoundChecker.check, file_not_found_checker.py:9-38: a
call to open (bare name or attribute) with a constant string first
argument probes the filesystem; a non-constant first argument always
warns. -/
def staticFileNotFoundCheck (w : World) (pos : APos) (func : ANode)
    (args : ANodeList) (errs : List Diag) : List Diag :=
  let is_open : Bool :=
    match func with
    | .nameE _ n _ _ => n == "open"
    | .attributeE _ attr _ _ => attr == "open"
    | _ => false
  if is_open then
    match args.toList with
    | file_arg :: _ =>
        match file_arg with
        | .constE _ (.strv path) =>
            if ¬ w.fsExists path then
              add_astroid_message "E0801" (.pos pos)
                ("FileNotFoundError: File " ++ sq ++ path ++ sq ++ " may not exist (Static)") errs
            else errs
        | _ =>
            add_astroid_message "E0801" (.pos pos)
              ("FileNotFoundError: File " ++ sq ++ file_arg.as_string ++ sq
                ++ " may not exist (Static)") errs
    | [] => errs
  else errs

/-- StaticZeroDivisionChecker.check, zero_division_checker.py:16-37: a
division or floor division whose right operand infers primarily to a
constant equal to 0 reports E0201 anchored at the right operand. -/
def staticZeroDivisionCheck (op : String) (right : ANode)
    (errs : List Diag) : List Diag :=
  if op = "/" ∨ op = "//" then
    match right.inferRes with
    | .error _ => errs
    | .ok [] => errs
    | .ok (v :: _) =>
      if v = .uninferable then errs
      else
        match v with
        | .constv c =>
            if pyConstToInt c = some 0 then
              add_astroid_message "E0201" (.pos right.apos)
                "ZeroDivisionError: division by zero (Static)" errs
            else errs
        | _ => errs
  else errs

mutual
/-- First call whose callee is a bare name equal to fname and whose
lexical scope is the function under scrutiny, in preorder — the search of
StaticRecursionChecker.check_function_recursion over
func_node.nodes_of_class(astroid.Call) with the call_node.scope() is
func_node test (recursion_checker.py:32-42).  Descending into a nested
functionDef or classDef clears the own-scope flag, since calls there have
that nested node as their scope.  Returns the position of the callee name
node of the first match. -/
def findSelfCall (fname : String) (inOwn : Bool) : ANode → Option APos
  | .module body => findSelfCallList fname inOwn body
  | .functionDef _ _ body => findSelfCallList fname false body
  | .classDef _ _ body => findSelfCallList fname false body
  | .exprStmt _ value => findSelfCall fname inOwn value
  | .assign _ targets value =>
      match findSelfCallList fname inOwn targets with
      | some p => some p
      | none => findSelfCall fname inOwn value
  | .assignName _ _ => none
  | .nameE _ _ _ _ => none
  | .attributeE _ _ expr _ => findSelfCall fname inOwn expr
  | .callE _ func args _ =>
      match func with
      | .nameE fpos nid _ _ =>
          if nid == fname && inOwn then some fpos
          else findSelfCallList fname inOwn args
      | _ =>
          match findSelfCall fname inOwn func with
          | some p => some p
          | none => findSelfCallList fname inOwn args
  | .subscriptE _ value idx _ =>
      match findSelfCall fname inOwn value with
      | some p => some p
      | none => findSelfCall fname inOwn idx
  | .binOp _ _ left right _ =>
      match findSelfCall fname inOwn left with
      | some p => some p
      | none => findSelfCall fname inOwn right
  | .constE _ _ => none
  | .listLit _ elts => findSelfCallList fname inOwn elts
  | .whileE _ test body orelse =>
      match findSelfCall fname inOwn test with
      | some p => some p
      | none =>
        match findSelfCallList fname inOwn body with
        | some p => some p
        | none => findSelfCallList fname inOwn orelse
  | .breakE _ => none
  | .passE _ => none
/-- List companion of findSelfCall. -/
def findSelfCallList (fname : String) (inOwn : Bool) : ANodeList → Option APos
  | .nil => none
  | .cons hd tl =>
      match findSelfCall fname inOwn hd with
      | some p => some p
      | none => findSelfCallList fname inOwn tl
end

/-- StaticRecursionChecker.check_function_recursion,
recursion_checker.py:24-45: the first self-call in scope reports one W0801
anchored at the callee name and stops. -/
def check_function_recursion (fname : String) (body : ANodeList)
    (errs : List Diag) : List Diag :=
  match findSelfCallList fname true body with
  | some fpos =>
      add_astroid_message "W0801" (.pos fpos)
        ("Potential recursion: Function " ++ sq ++ fname ++ sq ++ " calls itself (Static)") errs
  | none => errs

/-- One registered astroid checker: its NAME, the isinstance test against
its node_types (an empty node_types tuple matches every node,
core.py:185), its check method, and whether it defines the
check_function_recursion hook that core.py:197-202 looks for. -/
structure AstroidChecker where
  name : String
  applies : ANode → Bool
  check : World → ANode → List Diag → List Diag
  hasRecursionHook : Bool

/-- StaticNameErrorChecker as registered (node_types = (astroid.Name,)). -/
def nameErrorChecker : AstroidChecker where
  name := "static-name-error"
  applies := fun n => match n with | .nameE _ _ _ _ => true | _ => false
  check := fun w n errs =>
    match n with
    | .nameE pos nid _ lk => staticNameCheck w pos nid lk errs
    | _ => errs
  hasRecursionHook := false

/-- StaticTypeErrorChecker as registered (node_types = (astroid.BinOp,)). -/
def typeErrorChecker : AstroidChecker where
  name := "static-type-error"
  applies := fun n => match n with | .binOp _ _ _ _ _ => true | _ => false
  check := fun _ n errs =>
    match n with
    | .binOp pos op left right _ => staticTypeCheck pos op left right errs
    | _ => errs
  hasRecursionHook := false

/-- StaticAttributeErrorChecker as registered (node_types =
(astroid.Attribute,)). -/
def attributeErrorChecker : AstroidChecker where
  name := "static-attribute-error"
  applies := fun n => match n with | .attributeE _ _ _ _ => true | _ => false
  check := fun _ n errs =>
    match n with
    | .attributeE pos attr expr _ => staticAttributeCheck pos attr expr errs
    | _ => errs
  hasRecursionHook := false

/-- StaticIndexErrorChecker as registered (node_types =
(astroid.Subscript,)). -/
def indexErrorChecker : AstroidChecker where
  name := "static-index-error"
  applies := fun n => match n with | .subscriptE _ _ _ _ => true | _ => false
  check := fun _ n errs =>
    match n with
    | .subscriptE _ value idx _ => staticIndexCheck value idx errs
    | _ => errs
  hasRecursionHook := false

/-- StaticKeyErrorChecker as registered (node_types =
(astroid.Subscript,)). -/
def keyErrorChecker : AstroidChecker where
  name := "static-key-error"
  applies := fun n => match n with | .subscriptE _ _ _ _ => true | _ => false
  check := fun _ n errs =>
    match n with
    | .subscriptE _ value idx _ => staticKeyCheck value idx errs
    | _ => errs
  hasRecursionHook := false

/-- StaticInfiniteLoopChecker as registered (node_types =
(astroid.While,)). -/
def infiniteLoopChecker : AstroidChecker where
  name := "static-infinite-loop"
  applies := fun n => match n with | .whileE _ _ _ _ => true | _ => false
  check := fun _ n errs =>
    match n with
    | .whileE _ test body _ => staticInfiniteLoopCheck test body errs
    | _ => errs
  hasRecursionHook := false

/-- StaticFileNotFoundChecker as registered (node_types =
(astroid.Call,)). -/
def fileNotFoundChecker : AstroidChecker where
  name := "static-file-not-found"
  applies := fun n => match n with | .callE _ _ _ _ => true | _ => false
  check := fun w n errs =>
    match n with
    | .callE pos func args _ => staticFileNotFoundCheck w pos func args errs
    | _ => errs
  hasRecursionHook := false

/-- StaticZeroDivisionChecker as registered (node_types =
(astroid.BinOp,)). -/
def zeroDivisionChecker : AstroidChecker where
  name := "static-zero-division"
  applies := fun n => match n with | .binOp _ _ _ _ _ => true | _ => false
  check := fun _ n errs =>
    match n with
    | .binOp _ op _ right _ => staticZeroDivisionCheck op right errs
    | _ => errs
  hasRecursionHook := false

/-- StaticRecursionChecker, recursion_checker.py:7-45.  It inherits the
empty node_types (its own declaration is commented out,
recursion_checker.py:15) and does not override check, which in the base
class raises NotImplementedError; its substance is the
check_function_recursion hook.  It is imported by checkers/__init__.py:17
and listed in its __all__, but NOT included in STATIC_CHECKERS_CLASSES. -/
def recursionChecker : AstroidChecker where
  name := "static-recursion"
  applies := fun _ => true
  check := fun _ _ errs => errs
  hasRecursionHook := true

/-- STATIC_CHECKERS_CLASSES, checkers/__init__.py:29-38, in registration
order.  StaticRecursionChecker is absent from this list. -/
def STATIC_CHECKERS_CLASSES : List AstroidChecker :=
  [nameErrorChecker, typeErrorChecker, attributeErrorChecker, indexErrorChecker,
   keyErrorChecker, infiniteLoopChecker, fileNotFoundChecker, zeroDivisionChecker]

/-- Checker dispatch of core.py:184-188: every registered checker whose
node_types match the node runs, in registration order; all of their error
output flows through Linter.add_astroid_message. -/
def runCheckers (w : World) (n : ANode) (errs : List Diag) : List Diag :=
  STATIC_CHECKERS_CLASSES.foldl
    (fun acc c => if c.applies n then c.check w n acc else acc) errs

/-- Node of the call/definition graph with its optional type and lineno
attributes. -/
structure GNode where
  name : String
  ntype : Option String
  lineno : Option Int
deriving DecidableEq, Repr

/-- Edge of the call graph with its optional type attribute and optional
call_sites list (absent when the edge was created without a lineno). -/
structure GEdge where
  src : String
  dst : String
  etype : Option String
  call_sites : Option (List Int)
deriving DecidableEq, Repr

/-- Directed call graph as a node list and an edge list. -/
structure CallGraph where
  nodes : List GNode
  edges : List GEdge
deriving DecidableEq, Repr

/-- Empty graph, nx.DiGraph(). -/
def emptyGraph : CallGraph := ⟨[], []⟩

/-- Insertion of an integer into a sorted list. -/
def insertSortedInt (n : Int) : List Int → List Int
  | [] => [n]
  | m :: ms => if n ≤ m then n :: m :: ms else m :: insertSortedInt n ms

/-- Python list.sort() on integers. -/
def sortInts : List Int → List Int
  | [] => []
  | n :: ns => insertSortedInt n (sortInts ns)

/-- Attribute merge for an existing graph node, core.py:209-213: lineno is
set only when absent; type is overwritten only when absent or unknown. -/
def updateGNode (nd : GNode) (ntype : Option String) (lineno : Option Int) : GNode :=
  let nd1 :=
    match lineno with
    | some ln => if nd.lineno = none then { nd with lineno := some ln } else nd
    | none => nd
  match ntype with
  | some t =>
      if nd1.ntype = none ∨ nd1.ntype = some "unknown" then { nd1 with ntype := some t }
      else nd1
  | none => nd1

/-- Linter.add_node_to_graph, core.py:206-213. -/
def add_node_to_graph (g : CallGraph) (node_name : String)
    (ntype : Option String) (lineno : Option Int) : CallGraph :=
  if node_name = "" then g
  else if g.nodes.any (fun nd => nd.name = node_name) then
    let updated := g.nodes.map
      (fun nd => if nd.name = node_name then updateGNode nd ntype lineno else nd)
    { g with nodes := updated }
  else { g with nodes := g.nodes ++ [⟨node_name, ntype, lineno⟩] }

/-- Attribute merge for an existing edge, core.py:220-225: the call site
is appended to the sorted call_sites list (created when absent), and the
type attribute is overwritten only when absent or unknown. -/
def updateGEdge (e : GEdge) (etype : Option String) (lineno : Option Int) : GEdge :=
  let e1 :=
    match lineno, e.call_sites with
    | some ln, some cs =>
        if cs.contains ln then e else { e with call_sites := some (sortInts (cs ++ [ln])) }
    | some ln, none => { e with call_sites := some [ln] }
    | none, _ => e
  match etype with
  | some t =>
      if e1.etype = none ∨ e1.etype = some "unknown" then { e1 with etype := some t }
      else e1
  | none => e1

/-- Linter.add_edge_to_graph, core.py:215-228.  The non-string guard of
core.py:216 is handled by the caller (a bound-method callee never reaches
this function). -/
def add_edge_to_graph (g : CallGraph) (caller callee : String)
    (etype : Option String) (lineno : Option Int) : CallGraph :=
  if caller = "" ∨ callee = "" then g
  else
    let g1 := add_node_to_graph g caller (some "unknown") none
    let g2 := add_node_to_graph g1 callee (some "unknown") none
    if g2.edges.any (fun e => e.src = caller ∧ e.dst = callee) then
      let updated := g2.edges.map
        (fun e => if e.src = caller ∧ e.dst = callee then updateGEdge e etype lineno else e)
      { g2 with edges := updated }
    else
      let fresh : GEdge :=
        ⟨caller, callee, etype, match lineno with | some ln => some [ln] | none => none⟩
      { g2 with edges := g2.edges ++ [fresh] }

/-- Value of getattr(inferred, qname-attr, getattr(inferred, name-attr,
None)) for the graph builder (core.py:178): scoped nodes (functions,
classes) and instances expose qname as a bound method, which is not a
string and is later rejected by the isinstance guard of
add_edge_to_graph; constants and literal containers expose neither
attribute. -/
inductive GraphCallee where
  | strName (s : String)
  | methodObj
deriving DecidableEq, Repr

/-- Callee naming of the graph builder applied to the primary inferred
value of the call's func expression. -/
def gcalleeOf : IVal → Option GraphCallee
  | .funcv _ _ => some .methodObj
  | .classv _ => some .methodObj
  | .instv _ _ => some .methodObj
  | .constv _ => none
  | .listv _ => none
  | .tuplev _ => none
  | .dictv _ => none
  | .uninferable => none

/-- Mutable state of one Linter during the astroid pass: the shared error
sink and the call graph. -/
structure LinterSt where
  errors : List Diag
  call_graph : CallGraph
deriving DecidableEq, Repr

/-- Graph-building step of Linter.visit_astroid_node, core.py:170-183,
for one node, given the qname of the enclosing scope. -/
def graphStep (scopeQname : String) (n : ANode) (st : LinterSt) : LinterSt :=
  match n with
  | .functionDef pos fname _ =>
      let g := add_node_to_graph st.call_graph (scopeQname ++ "." ++ fname)
        (some "function") pos.fromlineno
      { st with call_graph := g }
  | .classDef pos cname _ =>
      let g := add_node_to_graph st.call_graph (scopeQname ++ "." ++ cname)
        (some "class") pos.fromlineno
      { st with call_graph := g }
  | .callE pos func _ _ =>
      (match func.inferRes with
      | .error _ => st
      | .ok [] => st
      | .ok (v :: _) =>
        if v = .uninferable then st
        else
          let call_type := match v with | .funcv _ true => "calls_method" | _ => "calls"
          match gcalleeOf v with
          | some (.strName s) =>
              let g := add_edge_to_graph st.call_graph scopeQname s (some call_type) pos.fromlineno
              { st with call_graph := g }
          | some .methodObj => st
          | none => st)
  | _ => st

mutual
/-- Linter.visit_astroid_node, core.py:169-189: graph building, checker
dispatch, then recursive descent into the children in astroid field
order.  The scope qname parameter tracks node.scope().qname(); function
and class definitions change it for their bodies. -/
def visit_astroid_node (w : World) (scopeQname : String) (n : ANode) (st : LinterSt) : LinterSt :=
  let st1 := graphStep scopeQname n st
  let st2 := { st1 with errors := runCheckers w n st1.errors }
  match n with
  | .module body => visit_astroid_list w scopeQname body st2
  | .functionDef _ fname body => visit_astroid_list w (scopeQname ++ "." ++ fname) body st2
  | .classDef _ cname body => visit_astroid_list w (scopeQname ++ "." ++ cname) body st2
  | .exprStmt _ value => visit_astroid_node w scopeQname value st2
  | .assign _ targets value =>
      visit_astroid_node w scopeQname value (visit_astroid_list w scopeQname targets st2)
  | .assignName _ _ => st2
  | .nameE _ _ _ _ => st2
  | .attributeE _ _ expr _ => visit_astroid_node w scopeQname expr st2
  | .callE _ func args _ =>
      visit_astroid_list w scopeQname args (visit_astroid_node w scopeQname func st2)
  | .subscriptE _ value idx _ =>
      visit_astroid_node w scopeQname idx (visit_astroid_node w scopeQname value st2)
  | .binOp _ _ left right _ =>
      visit_astroid_node w scopeQname right (visit_astroid_node w scopeQname left st2)
  | .constE _ _ => st2
  | .listLit _ elts => visit_astroid_list w scopeQname elts st2
  | .whileE _ test body orelse =>
      visit_astroid_list w scopeQname orelse
        (visit_astroid_list w scopeQname body (visit_astroid_node w scopeQname test st2))
  | .breakE _ => st2
  | .passE _ => st2
/-- Sequential visit of a child list. -/
def visit_astroid_list (w : World) (scopeQname : String) (l : ANodeList) (st : LinterSt) : LinterSt :=
  match l with
  | .nil => st
  | .cons hd tl => visit_astroid_list w scopeQname tl (visit_astroid_node w scopeQname hd st)
end

mutual
/-- All function definitions of the tree in preorder, as (name, body)
pairs — tree.nodes_of_class(astroid.FunctionDef) of core.py:201. -/
def collectFunctionDefs : ANode → List (String × ANodeList)
  | .module body => collectFunctionDefsList body
  | .functionDef _ fname body => (fname, body) :: collectFunctionDefsList body
  | .classDef _ _ body => collectFunctionDefsList body
  | .exprStmt _ value => collectFunctionDefs value
  | .assign _ targets value => collectFunctionDefsList targets ++ collectFunctionDefs value
  | .attributeE _ _ expr _ => collectFunctionDefs expr
  | .callE _ func args _ => collectFunctionDefs func ++ collectFunctionDefsList args
  | .subscriptE _ value idx _ => collectFunctionDefs value ++ collectFunctionDefs idx
  | .binOp _ _ left right _ => collectFunctionDefs left ++ collectFunctionDefs right
  | .listLit _ elts => collectFunctionDefsList elts
  | .whileE _ test body orelse =>
      collectFunctionDefs test ++ collectFunctionDefsList body ++ collectFunctionDefsList orelse
  | _ => []
/-- List companion of collectFunctionDefs. -/
def collectFunctionDefsList : ANodeList → List (String × ANodeList)
  | .nil => []
  | .cons hd tl => collectFunctionDefs hd ++ collectFunctionDefsList tl
end

/-- Function-level hook loop of Linter.analyze_astroid, core.py:196-202:
for every registered checker that defines check_function_recursion, the
hook runs on every function definition of the tree.  None of the eight
registered checkers defines it. -/
def runRecursionHooks (tree : ANode) (errs : List Diag) : List Diag :=
  STATIC_CHECKERS_CLASSES.foldl
    (fun acc c =>
      if c.hasRecursionHook then
        (collectFunctionDefs tree).foldl
          (fun acc2 fd => check_function_recursion fd.1 fd.2 acc2) acc
      else acc) errs

/-- Linter.analyze_astroid, core.py:191-204: load the static checkers,
reset the call graph, visit the tree from the module scope, then run the
function-level recursion hooks. -/
def analyze_astroid (w : World) (tree : ANode) (st0 : LinterSt) : LinterSt :=
  let st1 := visit_astroid_node w "<string>" tree { st0 with call_graph := emptyGraph }
  { st1 with errors := runRecursionHooks tree st1.errors }

/-- Syntax-error record built for one parso error in realtime mode,
core.py:249-251: raw start and end positions, with only the end column
clamped to col + 1. -/
def synErrDiag (e : SynErr) : Diag :=
  ⟨"SyntaxError: " ++ e.message, e.start_pos.1, e.start_pos.2,
    e.end_pos.1, max (e.start_pos.2 + 1) e.end_pos.2, "SyntaxError"⟩

/-- Replay of the add_message requests issued during the realtime parso
traversal against the shared sink. -/
def rtSinkRun (adds : List RTAdd) (errs : List Diag) : List Diag :=
  adds.foldl (fun acc a => add_message a.msg_id a.pos a.message acc) errs

/-- Linter-owned part of the realtime result (linter.errors after
core.py:240-257): a missing grammar or a crashed parse converts to a
single setup/crash diagnostic; otherwise the traversal of
Linter.analyze_parso runs, all of whose error output (realtime checkers,
internal-checker-error conversion, traversal-error conversion, and the
scope builder, which emits no diagnostics) flows through
Linter.add_message. -/
def realtimeLinterErrors (w : World) : List Diag :=
  if ¬ w.grammarOk then
    add_message "ParsoSetupError" .noNode "Parso grammar not loaded." []
  else if ¬ w.parsoParseOk then
    add_message "ParsoCrashError" .noNode
      ("Critical Parso parsing error: " ++ w.parsoCrashMsg) []
  else rtSinkRun w.rtAdds []

/-- Parser-owned syntax errors of the realtime result (core.py:249-252):
present only when the grammar loaded and the parse succeeded. -/
def realtimeSyntaxErrors (w : World) : List Diag :=
  if w.grammarOk ∧ w.parsoParseOk then w.parsoSyntaxErrs.map synErrDiag else []

/-- Single syntax-error record of static mode, core.py:271: positions
default through Python or-expressions on the exception's lineno and
offset. -/
def staticSyntaxDiag (msg : String) (lineno offset : Option Int) : Diag :=
  ⟨"SyntaxError: " ++ msg, pyOr lineno 1, pyOr offset 1 - 1,
    pyOr lineno 1, pyOr offset 1, "SyntaxError"⟩

/-- Result dictionary of analyze_code: the cleaned error list (the
internal key entry is derived in the model, so cleaning is the identity)
and the optional serialized call graph. -/
structure AnalysisResult where
  errors : List Diag
  call_graph : Option CallGraph
deriving DecidableEq, Repr

/-- json_graph.node_link_data, modelled as the graph content itself. -/
def serializeGraph (g : CallGraph) : CallGraph := g

/-- analyze_code, core.py:231-292: the facade.  A fresh Linter is
constructed per call (core.py:233); realtime mode concatenates the parser
syntax errors with the linter errors (core.py:259); static mode
short-circuits on a SyntaxError, converts any other astroid parse failure
to a diagnostic, and serializes the call graph when nonempty; any other
mode yields the single ModeError record of core.py:286. -/
def analyze_code (w : World) (mode : String) : AnalysisResult :=
  if mode = "realtime" then
    { errors := realtimeSyntaxErrors w ++ realtimeLinterErrors w, call_graph := none }
  else if mode = "static" then
    match w.astroidParse with
    | .ok tree =>
        let st := analyze_astroid w tree ⟨[], emptyGraph⟩
        let cg := if st.call_graph.nodes ≠ [] then some (serializeGraph st.call_graph) else none
        { errors := st.errors, call_graph := cg }
    | .synErr msg lineno offset =>
        { errors := [staticSyntaxDiag msg lineno offset], call_graph := none }
    | .otherErr msg =>
        { errors := add_message "AstroidParsingError" .noNode
            ("Error parsing with Astroid: " ++ msg) [], call_graph := none }
  else
    { errors := [⟨"Unknown analysis mode: " ++ mode, 1, 0, 1, 1, "ModeError"⟩],
      call_graph := none }

/-- Session state a host could carry between facade calls: a linter state
left over from an earlier call.  analyze_code constructs a fresh Linter at
core.py:233, so no component of this state flows into a call. -/
structure Session where
  leftover : LinterSt

/-- One facade call made by a host holding session state: the result is
computed by analyze_code from the source and mode alone, and the session
is replaced by the fresh linter state the call built and discarded. -/
def facade_step (w : World) (mode : String) (_s : Session) : AnalysisResult × Session :=
  (analyze_code w mode, ⟨⟨[], emptyGraph⟩⟩)

/-- Position literal helper for the concrete fixtures. -/
def mkPos (l c tl ec : Int) : APos := ⟨some l, some c, some tl, some ec⟩

/-- Body of def f with one direct self-call, the parse of
two lines reading def f(): / f(). -/
def fRecBody : ANodeList :=
  .cons (.exprStmt (mkPos 2 4 2 7)
    (.callE (mkPos 2 4 2 7)
      (.nameE (mkPos 2 4 2 5) "f" (.ok [.funcv "<string>.f" false]) (.found true))
      .nil (.ok []))) .nil

/-- Module holding that function definition. -/
def recTree : ANode := .module (.cons (.functionDef (mkPos 1 0 2 7) "f" fRecBody) .nil)

/-- World of the static analysis of def f(): f(). -/
def wRec : World :=
  ⟨fun s => s == "print", fun _ => false, true, true, "", [], [], .ok recTree⟩

/-- Body of def f containing the same direct self-call twice. -/
def fTwiceBody : ANodeList :=
  .cons (.exprStmt (mkPos 2 4 2 7)
    (.callE (mkPos 2 4 2 7)
      (.nameE (mkPos 2 4 2 5) "f" (.ok [.funcv "<string>.f" false]) (.found true))
      .nil (.ok [])))
  (.cons (.exprStmt (mkPos 3 4 3 7)
    (.callE (mkPos 3 4 3 7)
      (.nameE (mkPos 3 4 3 5) "f" (.ok [.funcv "<string>.f" false]) (.found true))
      .nil (.ok []))) .nil)

/-- Body of def f whose only same-named call sits inside a nested def g. -/
def fNestedBody : ANodeList :=
  .cons (.functionDef (mkPos 2 4 3 11) "g"
    (.cons (.exprStmt (mkPos 3 8 3 11)
      (.callE (mkPos 3 8 3 11)
        (.nameE (mkPos 3 8 3 9) "f" (.ok [.funcv "<string>.f" false]) (.found true))
        .nil (.ok []))) .nil)) .nil

/-- Module of the source print(z) where z is never bound: print is a
builtin function, z is unresolvable (its inference raises and its lookup
returns no definition). -/
def printZTree : ANode :=
  .module (.cons (.exprStmt (mkPos 1 0 1 8)
    (.callE (mkPos 1 0 1 8)
      (.nameE (mkPos 1 0 1 5) "print" (.ok [.funcv "builtins.print" false]) (.found true))
      (.cons (.nameE (mkPos 1 6 1 7) "z" (.error .inferenceError) (.found false)) .nil)
      (.ok []))) .nil)

/-- World of the static analysis of print(z). -/
def wPrintZ : World :=
  ⟨fun s => s == "print", fun _ => false, true, true, "", [], [], .ok printZTree⟩

/-- Statement lst = [1, 2, 3]. -/
def lstAssign : ANode :=
  .assign (mkPos 1 0 1 13)
    (.cons (.assignName (mkPos 1 0 1 3) "lst") .nil)
    (.listLit (mkPos 1 6 1 13)
      (.cons (.constE (mkPos 1 7 1 8) (.intv 1))
      (.cons (.constE (mkPos 1 9 1 10) (.intv 2))
      (.cons (.constE (mkPos 1 11 1 12) (.intv 3)) .nil))))

/-- Module of lst = [1, 2, 3] followed by print(lst[i]): the name lst
infers to the three-element list literal, the subscript index is the
constant i. -/
def idxTree (i : Int) : ANode :=
  .module (.cons lstAssign
    (.cons (.exprStmt (mkPos 2 0 2 13)
      (.callE (mkPos 2 0 2 13)
        (.nameE (mkPos 2 0 2 5) "print" (.ok [.funcv "builtins.print" false]) (.found true))
        (.cons (.subscriptE (mkPos 2 6 2 12)
          (.nameE (mkPos 2 6 2 9) "lst" (.ok [.listv 3]) (.found true))
          (.constE (mkPos 2 10 2 11) (.intv i)) (.ok [])) .nil)
        (.ok []))) .nil))

/-- World of the static analysis of lst = [1,2,3]; print(lst[5]). -/
def wIdx5 : World :=
  ⟨fun s => s == "print", fun _ => false, true, true, "", [], [], .ok (idxTree 5)⟩

/-- World of the static analysis of lst = [1,2,3]; print(lst[1]). -/
def wIdx1 : World :=
  ⟨fun s => s == "print", fun _ => false, true, true, "", [], [], .ok (idxTree 1)⟩

/-- Module of while True: with the given loop body. -/
def loopTree (body : ANodeList) : ANode :=
  .module (.cons (.whileE (mkPos 1 0 2 8)
    (.constE (mkPos 1 6 1 10) (.boolv true)) body .nil) .nil)

/-- World of the static analysis of while True: / pass. -/
def wLoopPass : World :=
  ⟨fun s => s == "print", fun _ => false, true, true, "",
    [], [], .ok (loopTree (.cons (.passE (mkPos 2 4 2 8)) .nil))⟩

/-- World of the static analysis of while True: / break. -/
def wLoopBreak : World :=
  ⟨fun s => s == "print", fun _ => false, true, true, "",
    [], [], .ok (loopTree (.cons (.breakE (mkPos 2 4 2 9)) .nil))⟩

/-- Minimal world whose astroid parse fails with a non-syntax exception;
also used where the astroid side is irrelevant. -/
def wTriv : World :=
  ⟨fun _ => false, fun _ => false, true, true, "", [], [], .otherErr "boom"⟩

/-- One parso syntax error. -/
def dupErr : SynErr := ⟨"invalid syntax", (1, 0), (1, 5)⟩

/-- World in which the parso error iterator yields the same syntax error
twice. -/
def wDup : World :=
  ⟨fun _ => false, fun _ => false, true, true, "", [dupErr, dupErr], [], .otherErr ""⟩

/-- World with one parser syntax error and one realtime checker finding
whose keys differ. -/
def wMix : World :=
  ⟨fun _ => false, fun _ => false, true, true, "", [dupErr],
    [⟨"E0101", .node (2, 0) (2, 1),
      "NameError: Name " ++ sq ++ "x" ++ sq ++ " is not defined (RT-Parso)"⟩],
    .otherErr ""⟩

/-- Locally defined symbol for the lookup fixture. -/
def symX : Symbol := ⟨"x", .VARIABLE, some 5⟩

/-- Two-level scope fixture: a function scope defining x inside an empty
module scope. -/
def scW : Scope := .child 1 [("x", symX)] (.root 0 [])

/-- Builtins oracle of the lookup fixture: only len is a builtin. -/
def bsW (s : String) : Bool := s == "len"

theorem appendDedup_mem (d : Diag) (errs : List Diag) (e : Diag)
    (he : e ∈ appendDedup d errs) : e ∈ errs ∨ e = d := by
  unfold appendDedup at he
  by_cases h : errs.any (fun x => diagKey x = diagKey d)
  · simp [h] at he; exact Or.inl he
  · simp [h] at he
    rcases he with h1 | h1
    · exact Or.inl h1
    · exact Or.inr h1

theorem appendDedup_keysNodup (d : Diag) (errs : List Diag)
    (h : keysNodup errs) : keysNodup (appendDedup d errs) := by
  unfold appendDedup
  by_cases hc : errs.any (fun x => diagKey x = diagKey d)
  · simpa [hc] using h
  · simp only [hc, if_neg, Bool.false_eq_true, not_false_eq_true]
    unfold keysNodup at *
    rw [List.map_append]
    simp only [List.map_cons, List.map_nil]
    rw [List.nodup_append]
    refine ⟨h, List.nodup_singleton _, ?_⟩
    intro k hk
    simp only [List.mem_singleton]
    intro hkd
    rcases List.mem_map.mp hk with ⟨e, he, hek⟩
    apply hc
    rw [List.any_eq_true]
    exact ⟨e, he, by simp [hek, hkd]⟩

theorem add_message_keysNodup (msg_id : String) (ps : PosSource)
    (message : String) (errs : List Diag) (h : keysNodup errs) :
    keysNodup (add_message msg_id ps message errs) := by
  unfold add_message
  cases ps <;> simp only <;> exact appendDedup_keysNodup _ _ h

theorem add_astroid_message_keysNodup (msg_id : String) (ps : APosSource)
    (message : String) (errs : List Diag) (h : keysNodup errs) :
    keysNodup (add_astroid_message msg_id ps message errs) := by
  unfold add_astroid_message
  cases ps <;> simp only <;> exact appendDedup_keysNodup _ _ h

theorem graphStep_errors (q : String) (n : ANode) (st : LinterSt) :
    (graphStep q n st).errors = st.errors := by
  unfold graphStep
  cases n <;> simp only <;> (try rfl) <;> (repeat' split) <;> rfl

theorem staticNameCheck_preserves (w : World) (pos : APos) (nid : String)
    (lk : LookupOut) (errs : List Diag) (h : keysNodup errs) :
    keysNodup (staticNameCheck w pos nid lk errs) := by
  unfold staticNameCheck
  repeat' split
  all_goals first
    | exact h
    | exact add_astroid_message_keysNodup _ _ _ _ h

theorem staticTypeCheck_preserves (pos : APos) (op : String) (left right : ANode)
    (errs : List Diag) (h : keysNodup errs) :
    keysNodup (staticTypeCheck pos op left right errs) := by
  unfold staticTypeCheck
  repeat' split
  all_goals first
    | exact h
    | exact add_astroid_message_keysNodup _ _ _ _ h

theorem attrLoop_preserves (pos : APos) (attrname : String) (vals : List IVal)
    (st : AttrLoopSt) (h : keysNodup st.errs) :
    keysNodup (attrLoop pos attrname vals st).errs := by
  induction vals generalizing st with
  | nil => simpa [attrLoop] using h
  | cons v vs ih =>
      unfold attrLoop
      split
      · exact ih _ h
      · split
        · split
          · exact ih _ h
          · apply ih
            dsimp only
            exact add_astroid_message_keysNodup _ _ _ _ h
        · dsimp only
          split
          · exact h
          · exact ih _ h

theorem staticAttributeCheck_preserves (pos : APos) (attrname : String)
    (expr : ANode) (errs : List Diag) (h : keysNodup errs) :
    keysNodup (staticAttributeCheck pos attrname expr errs) := by
  unfold staticAttributeCheck
  dsimp only
  repeat' split
  all_goals first
    | exact h
    | exact attrLoop_preserves _ _ _ _ h
    | exact add_astroid_message_keysNodup _ _ _ _ (attrLoop_preserves _ _ _ _ h)

theorem indexScan_preserves (slicePos : APos) (idx : Int) (idxStr : String)
    (vals : List IVal) (errs : List Diag) (h : keysNodup errs) :
    keysNodup (indexScan slicePos idx idxStr vals errs) := by
  induction vals generalizing errs with
  | nil => simpa [indexScan] using h
  | cons v vs ih =>
      unfold indexScan
      repeat' split
      all_goals first
        | exact ih _ h
        | exact add_astroid_message_keysNodup _ _ _ _ h
        | exact h

theorem staticIndexCheck_preserves (value idx : ANode) (errs : List Diag)
    (h : keysNodup errs) : keysNodup (staticIndexCheck value idx errs) := by
  unfold staticIndexCheck
  repeat' split
  all_goals first
    | exact h
    | exact add_astroid_message_keysNodup _ _ _ _ h
    | exact indexScan_preserves _ _ _ _ _ h

theorem keyScan_preserves (slicePos : APos) (key : PyConst) (vals : List IVal)
    (errs : List Diag) (h : keysNodup errs) :
    keysNodup (keyScan slicePos key vals errs) := by
  induction vals generalizing errs with
  | nil => simpa [keyScan] using h
  | cons v vs ih =>
      unfold keyScan
      repeat' split
      all_goals first
        | exact ih _ h
        | exact add_astroid_message_keysNodup _ _ _ _ h
        | exact h

theorem staticKeyCheck_preserves (value idx : ANode) (errs : List Diag)
    (h : keysNodup errs) : keysNodup (staticKeyCheck value idx errs) := by
  unfold staticKeyCheck
  repeat' split
  all_goals first
    | exact h
    | exact add_astroid_message_keysNodup _ _ _ _ h
    | exact keyScan_preserves _ _ _ _ h

theorem staticInfiniteLoopCheck_preserves (test : ANode) (body : ANodeList)
    (errs : List Diag) (h : keysNodup errs) :
    keysNodup (staticInfiniteLoopCheck test body errs) := by
  unfold staticInfiniteLoopCheck
  dsimp only
  repeat' split
  all_goals first
    | exact h
    | exact add_astroid_message_keysNodup _ _ _ _ h

theorem staticFileNotFoundCheck_preserves (w : World) (pos : APos) (func : ANode)
    (args : ANodeList) (errs : List Diag) (h : keysNodup errs) :
    keysNodup (staticFileNotFoundCheck w pos func args errs) := by
  unfold staticFileNotFoundCheck
  dsimp only
  repeat' split
  all_goals first
    | exact h
    | exact add_astroid_message_keysNodup _ _ _ _ h

theorem staticZeroDivisionCheck_preserves (op : String) (right : ANode)
    (errs : List Diag) (h : keysNodup errs) :
    keysNodup (staticZeroDivisionCheck op right errs) := by
  unfold staticZeroDivisionCheck
  repeat' split
  all_goals first
    | exact h
    | exact add_astroid_message_keysNodup _ _ _ _ h

theorem runCheckers_preserves (w : World) (n : ANode) (errs : List Diag)
    (h : keysNodup errs) : keysNodup (runCheckers w n errs) := by
  unfold runCheckers STATIC_CHECKERS_CLASSES
  simp only [List.foldl_cons, List.foldl_nil]
  have step1 : keysNodup (if nameErrorChecker.applies n then nameErrorChecker.check w n errs else errs) := by
    split
    · cases n <;> simp only [nameErrorChecker] <;>
        first
          | exact h
          | exact staticNameCheck_preserves _ _ _ _ _ h
    · exact h
  generalize (if nameErrorChecker.applies n then nameErrorChecker.check w n errs else errs) = e1 at step1
  have step2 : keysNodup (if typeErrorChecker.applies n then typeErrorChecker.check w n e1 else e1) := by
    split
    · cases n <;> simp only [typeErrorChecker] <;>
        first
          | exact step1
          | exact staticTypeCheck_preserves _ _ _ _ _ step1
    · exact step1
  generalize (if typeErrorChecker.applies n then typeErrorChecker.check w n e1 else e1) = e2 at step2
  have step3 : keysNodup (if attributeErrorChecker.applies n then attributeErrorChecker.check w n e2 else e2) := by
    split
    · cases n <;> simp only [attributeErrorChecker] <;>
        first
          | exact step2
          | exact staticAttributeCheck_preserves _ _ _ _ step2
    · exact step2
  generalize (if attributeErrorChecker.applies n then attributeErrorChecker.check w n e2 else e2) = e3 at step3
  have step4 : keysNodup (if indexErrorChecker.applies n then indexErrorChecker.check w n e3 else e3) := by
    split
    · cases n <;> simp only [indexErrorChecker] <;>
        first
          | exact step3
          | exact staticIndexCheck_preserves _ _ _ step3
    · exact step3
  generalize (if indexErrorChecker.applies n then indexErrorChecker.check w n e3 else e3) = e4 at step4
  have step5 : keysNodup (if keyErrorChecker.applies n then keyErrorChecker.check w n e4 else e4) := by
    split
    · cases n <;> simp only [keyErrorChecker] <;>
        first
          | exact step4
          | exact staticKeyCheck_preserves _ _ _ step4
    · exact step4
  generalize (if keyErrorChecker.applies n then keyErrorChecker.check w n e4 else e4) = e5 at step5
  have step6 : keysNodup (if infiniteLoopChecker.applies n then infiniteLoopChecker.check w n e5 else e5) := by
    split
    · cases n <;> simp only [infiniteLoopChecker] <;>
        first
          | exact step5
          | exact staticInfiniteLoopCheck_preserves _ _ _ step5
    · exact step5
  generalize (if infiniteLoopChecker.applies n then infiniteLoopChecker.check w n e5 else e5) = e6 at step6
  have step7 : keysNodup (if fileNotFoundChecker.applies n then fileNotFoundChecker.check w n e6 else e6) := by
    split
    · cases n <;> simp only [fileNotFoundChecker] <;>
        first
          | exact step6
          | exact staticFileNotFoundCheck_preserves _ _ _ _ _ step6
    · exact step6
  generalize (if fileNotFoundChecker.applies n then fileNotFoundChecker.check w n e6 else e6) = e7 at step7
  split
  · cases n <;> simp only [zeroDivisionChecker] <;>
      first
        | exact step7
        | exact staticZeroDivisionCheck_preserves _ _ _ step7
  · exact step7

mutual
theorem visit_astroid_node_preserves (w : World) (q : String) (n : ANode) (st : LinterSt)
    (h : keysNodup st.errors) : keysNodup (visit_astroid_node w q n st).errors := by
  have h2 : keysNodup (runCheckers w n (graphStep q n st).errors) := by
    rw [graphStep_errors]
    exact runCheckers_preserves w n st.errors h
  unfold visit_astroid_node
  cases n with
  | module body => exact visit_astroid_list_preserves w q body _ h2
  | functionDef p fname body => exact visit_astroid_list_preserves w _ body _ h2
  | classDef p cname body => exact visit_astroid_list_preserves w _ body _ h2
  | exprStmt p value => exact visit_astroid_node_preserves w q value _ h2
  | assign p targets value =>
      exact visit_astroid_node_preserves w q value _
        (visit_astroid_list_preserves w q targets _ h2)
  | assignName p a => exact h2
  | nameE p nid inf lk => exact h2
  | attributeE p attr expr inf => exact visit_astroid_node_preserves w q expr _ h2
  | callE p func args inf =>
      exact visit_astroid_list_preserves w q args _
        (visit_astroid_node_preserves w q func _ h2)
  | subscriptE p value idx inf =>
      exact visit_astroid_node_preserves w q idx _
        (visit_astroid_node_preserves w q value _ h2)
  | binOp p op left right inf =>
      exact visit_astroid_node_preserves w q right _
        (visit_astroid_node_preserves w q left _ h2)
  | constE p c => exact h2
  | listLit p elts => exact visit_astroid_list_preserves w q elts _ h2
  | whileE p test body orelse =>
      exact visit_astroid_list_preserves w q orelse _
        (visit_astroid_list_preserves w q body _
          (visit_astroid_node_preserves w q test _ h2))
  | breakE p => exact h2
  | passE p => exact h2
theorem visit_astroid_list_preserves (w : World) (q : String) (l : ANodeList) (st : LinterSt)
    (h : keysNodup st.errors) : keysNodup (visit_astroid_list w q l st).errors := by
  unfold visit_astroid_list
  cases l with
  | nil => exact h
  | cons hd tl =>
      exact visit_astroid_list_preserves w q tl _
        (visit_astroid_node_preserves w q hd _ h)
end

theorem runRecursionHooks_id (tree : ANode) (errs : List Diag) :
    runRecursionHooks tree errs = errs := by
  unfold runRecursionHooks STATIC_CHECKERS_CLASSES
  simp [nameErrorChecker, typeErrorChecker, attributeErrorChecker, indexErrorChecker,
        keyErrorChecker, infiniteLoopChecker, fileNotFoundChecker, zeroDivisionChecker]

theorem analyze_astroid_preserves (w : World) (tree : ANode) (st0 : LinterSt)
    (h : keysNodup st0.errors) : keysNodup (analyze_astroid w tree st0).errors := by
  unfold analyze_astroid
  dsimp only
  rw [runRecursionHooks_id]
  exact visit_astroid_node_preserves w _ tree _ h

theorem keysNodup_nil : keysNodup [] := by
  simp [keysNodup]

theorem rtSinkRun_preserves (adds : List RTAdd) (errs : List Diag)
    (h : keysNodup errs) : keysNodup (rtSinkRun adds errs) := by
  induction adds generalizing errs with
  | nil => simpa [rtSinkRun] using h
  | cons a as ih =>
      unfold rtSinkRun
      simp only [List.foldl_cons]
      exact ih _ (add_message_keysNodup _ _ _ _ h)

theorem realtimeLinterErrors_keysNodup (w : World) :
    keysNodup (realtimeLinterErrors w) := by
  unfold realtimeLinterErrors
  repeat' split
  · exact add_message_keysNodup _ _ _ _ keysNodup_nil
  · exact add_message_keysNodup _ _ _ _ keysNodup_nil
  · exact rtSinkRun_preserves _ _ keysNodup_nil

theorem analyze_code_static_keysNodup (w : World) :
    keysNodup ((analyze_code w "static").errors) := by
  unfold analyze_code
  rw [if_neg (by decide), if_pos rfl]
  rcases hap : w.astroidParse with tree | ⟨msg, l, o⟩ | msg <;> dsimp only
  · exact analyze_astroid_preserves w tree _ keysNodup_nil
  · simp [keysNodup]
  · exact add_message_keysNodup _ _ _ _ keysNodup_nil

/-- C10: every diagnostic appended through Linter.add_message or
Linter.add_astroid_message satisfies the position invariant line >= 1,
column >= 0, to_line >= line and end_column >= column + 1, for every node
argument; a missing node yields exactly the fallback record at
(1, 0, 1, 1). -/
theorem sink_position_invariant :
    (∀ (msg_id : String) (ps : PosSource) (message : String) (errs : List Diag)
        (d : Diag), d ∈ add_message msg_id ps message errs → d ∈ errs ∨ posInvariant d)
    ∧ (∀ (msg_id : String) (ps : APosSource) (message : String) (errs : List Diag)
        (d : Diag), d ∈ add_astroid_message msg_id ps message errs → d ∈ errs ∨ posInvariant d)
    ∧ (∀ (msg_id message : String),
        add_message msg_id .noNode message [] = [⟨message, 1, 0, 1, 1, msg_id⟩]) := by
  refine ⟨?_, ?_, ?_⟩
  · intro msg_id ps message errs d hd
    cases ps with
    | noNode =>
        simp only [add_message] at hd
        rcases appendDedup_mem _ _ _ hd with h | h
        · exact Or.inl h
        · subst h; exact Or.inr (by simp [posInvariant])
    | node sp ep =>
        simp only [add_message, clampParso] at hd
        rcases appendDedup_mem _ _ _ hd with h | h
        · exact Or.inl h
        · subst h
          refine Or.inr ⟨le_max_left _ _, le_max_left _ _, le_max_left _ _, le_max_left _ _⟩
    | raises =>
        simp only [add_message] at hd
        rcases appendDedup_mem _ _ _ hd with h | h
        · exact Or.inl h
        · subst h; exact Or.inr (by simp [posInvariant])
  · intro msg_id ps message errs d hd
    cases ps with
    | pos p =>
        simp only [add_astroid_message] at hd
        rcases appendDedup_mem _ _ _ hd with h | h
        · exact Or.inl h
        · subst h
          refine Or.inr ⟨le_max_left _ _, le_max_left _ _, le_max_left _ _, le_max_left _ _⟩
    | raises =>
        simp only [add_astroid_message] at hd
        rcases appendDedup_mem _ _ _ hd with h | h
        · exact Or.inl h
        · subst h; exact Or.inr (by simp [posInvariant])
  · intro msg_id message
    simp [add_message, appendDedup]

/-- Witness for C10: the fallback record produced by a missing node is in
the sink output and satisfies the invariant. -/
theorem sink_position_invariant_witness :
    posInvariant ⟨"boom", 1, 0, 1, 1, "CheckerInitError"⟩ := by
  have h := sink_position_invariant.1 "CheckerInitError" PosSource.noNode "boom" []
    ⟨"boom", 1, 0, 1, 1, "CheckerInitError"⟩ (by decide)
  exact h.resolve_left (List.not_mem_nil _)

/-- C6: Scope.lookup returns the local symbol when the name is locally
defined; otherwise, with search_parents set and a parent present, it
returns the parent chain's lookup; otherwise a builtin name yields a fresh
BUILTIN symbol with no definition node; otherwise None
(symbol_table.py:42-61). -/
theorem scope_lookup_spec (bs : String → Bool) (sc : Scope) (name : String) (sp : Bool) :
    (∀ s, sc.symbols.lookup name = some s → Scope.lookup bs sc name sp = some s)
    ∧ (sc.symbols.lookup name = none → sp = true → ∀ p, sc.parent = some p →
        Scope.lookup bs sc name sp = Scope.lookup bs p name true)
    ∧ (sc.symbols.lookup name = none → (sp = false ∨ sc.parent = none) → bs name = true →
        Scope.lookup bs sc name sp = some ⟨name, .BUILTIN, none⟩)
    ∧ (sc.symbols.lookup name = none → (sp = false ∨ sc.parent = none) → bs name = false →
        Scope.lookup bs sc name sp = none) := by
  refine ⟨?_, ?_, ?_, ?_⟩
  · intro s hs
    cases sc with
    | root node syms =>
        simp only [Scope.symbols] at hs
        unfold Scope.lookup
        rw [hs]
    | child node syms parent =>
        simp only [Scope.symbols] at hs
        unfold Scope.lookup
        rw [hs]
  · intro hs hsp p hp
    subst hsp
    cases sc with
    | root node syms => simp [Scope.parent] at hp
    | child node syms parent =>
        simp only [Scope.parent, Option.some_inj] at hp
        subst hp
        simp only [Scope.symbols] at hs
        conv_lhs => unfold Scope.lookup
        rw [hs]
        simp
  · intro hs hor hb
    cases sc with
    | root node syms =>
        simp only [Scope.symbols] at hs
        unfold Scope.lookup
        rw [hs]
        simp [hb]
    | child node syms parent =>
        cases sp with
        | false =>
            simp only [Scope.symbols] at hs
            unfold Scope.lookup
            rw [hs]
            simp [hb]
        | true =>
            rcases hor with hor | hor
            · exact absurd hor (by simp)
            · simp [Scope.parent] at hor
  · intro hs hor hb
    cases sc with
    | root node syms =>
        simp only [Scope.symbols] at hs
        unfold Scope.lookup
        rw [hs]
        simp [hb]
    | child node syms parent =>
        cases sp with
        | false =>
            simp only [Scope.symbols] at hs
            unfold Scope.lookup
            rw [hs]
            simp [hb]
        | true =>
            rcases hor with hor | hor
            · exact absurd hor (by simp)
            · simp [Scope.parent] at hor

/-- Witness for C6: on the two-level fixture, a locally defined name
resolves locally, a builtin resolves to a fresh BUILTIN symbol when the
parent walk is off, and an unknown name is unbound. -/
theorem scope_lookup_spec_witness :
    Scope.lookup bsW scW "x" true = some symX
    ∧ Scope.lookup bsW (Scope.root 0 []) "len" false = some ⟨"len", .BUILTIN, none⟩
    ∧ Scope.lookup bsW (Scope.root 0 []) "q" true = none := by
  refine ⟨?_, ?_, ?_⟩
  · exact (scope_lookup_spec bsW scW "x" true).1 symX (by decide)
  · exact (scope_lookup_spec bsW (Scope.root 0 []) "len" false).2.2.1 rfl (Or.inl rfl) rfl
  · exact (scope_lookup_spec bsW (Scope.root 0 []) "q" true).2.2.2 rfl (Or.inr rfl) rfl

/-- C9: two facade calls with identical source, mode and external
environment produce identical results.  analyze_code constructs a fresh
Linter per call (core.py:233), which in the embedding makes facade_step
independent of the session state carried between calls, so a repeated
call returns exactly the first result. -/
theorem facade_idempotent (w : World) (mode : String) (s1 s2 : Session) :
    (facade_step w mode s1).1 = (facade_step w mode s2).1
    ∧ (facade_step w mode (facade_step w mode s1).2).1 = (facade_step w mode s1).1 :=
  ⟨rfl, rfl⟩

/-- C4 counterexample: with the unrecognized mode bogus, the single
diagnostic has errorType ModeError — the literal written at core.py:286 —
not InvalidModeError as the claim states. -/
theorem invalid_mode_tag_cex :
    (analyze_code wTriv "bogus").errors =
      [⟨"Unknown analysis mode: bogus", 1, 0, 1, 1, "ModeError"⟩]
    ∧ (∀ d ∈ (analyze_code wTriv "bogus").errors, d.errorType ≠ "InvalidModeError") := by
  constructor
  · decide
  · decide

/-- C4 amended: a mode other than realtime and static yields exactly one
diagnostic of errorType ModeError with message naming the mode, a null
call graph, and no exception. -/
theorem invalid_mode_single_diag (w : World) (mode : String)
    (h1 : mode ≠ "realtime") (h2 : mode ≠ "static") :
    analyze_code w mode =
      ⟨[⟨"Unknown analysis mode: " ++ mode, 1, 0, 1, 1, "ModeError"⟩], none⟩ := by
  unfold analyze_code
  rw [if_neg h1, if_neg h2]

/-- Witness for the amended C4 at mode bogus. -/
theorem invalid_mode_single_diag_witness :
    analyze_code wTriv "bogus" =
      ⟨[⟨"Unknown analysis mode: " ++ "bogus", 1, 0, 1, 1, "ModeError"⟩], none⟩ :=
  invalid_mode_single_diag wTriv "bogus" (by decide) (by decide)

/-- C3: the static pipeline emits NO recursion diagnostic for
def f(): f() — the analysis of that module returns no errors at all —
because STATIC_CHECKERS_CLASSES (checkers/__init__.py:29-38) omits
StaticRecursionChecker and no registered checker carries the
check_function_recursion hook that core.py:197-202 looks for, so the hook
loop is the identity on every tree.  The checker itself, applied to the
same function as the spec describes, emits exactly one W0801 diagnostic,
exactly one even when the self-call appears twice, and none when the only
same-named call sits inside a nested function. -/
theorem recursion_checker_not_registered :
    (analyze_code wRec "static").errors = []
    ∧ STATIC_CHECKERS_CLASSES.all (fun c => !c.hasRecursionHook) = true
    ∧ (∀ tree errs, runRecursionHooks tree errs = errs)
    ∧ check_function_recursion "f" fRecBody [] =
        [⟨"Potential recursion: Function " ++ sq ++ "f" ++ sq ++ " calls itself (Static)",
          2, 4, 2, 5, "W0801"⟩]
    ∧ (check_function_recursion "f" fTwiceBody []).length = 1
    ∧ check_function_recursion "f" fNestedBody [] = [] := by
  refine ⟨by decide, by decide, runRecursionHooks_id, by decide, by decide, by decide⟩

theorem whileTrueHead_iff (tv : List IVal) :
    ((match tv with | IVal.constv (PyConst.boolv true) :: _ => true | _ => false) = true)
      ↔ ∃ rest, tv = IVal.constv (PyConst.boolv true) :: rest := by
  cases tv with
  | nil => simp
  | cons v rest =>
      cases v with
      | constv c =>
          cases c with
          | boolv b => cases b <;> simp
          | intv n => simp
          | strv s => simp
          | bytesv s => simp
          | nonev => simp
      | uninferable => simp
      | listv n => simp
      | tuplev n => simp
      | dictv ks => simp
      | funcv q b => simp
      | classv q => simp
      | instv t a => simp

theorem isBreakFn_iff (n : ANode) :
    ((match n with | ANode.breakE _ => true | _ => false) = true)
      ↔ ∃ p, n = ANode.breakE p := by
  cases n <;> simp

/-- C5: static analysis of print(z) with z never bound yields exactly one
NameError-tagged diagnostic referencing z (errorType E0102, the static
name checker's NameError message naming z); in general the checker
reports a name-use node exactly when the name is not a host-language
builtin and the lookup finds no definition — it raises NotFoundError or
returns an empty definitions list (name_error_checker.py:22-42); a lookup
that raises any other exception is swallowed. -/
theorem static_name_checker_spec :
    ((analyze_code wPrintZ "static").errors =
      [⟨"NameError: Name " ++ sq ++ "z" ++ sq ++ " is not defined (Static)",
        1, 6, 1, 7, "E0102"⟩])
    ∧ ((analyze_code wPrintZ "static").errors.countP
        (fun d => d.errorType == "E0102") = 1)
    ∧ (∀ (w : World) (pos : APos) (nid : String) (lk : LookupOut),
        ((∃ d ∈ staticNameCheck w pos nid lk [], d.errorType = "E0102") ↔
          (w.builtinsHas nid = false ∧ (lk = .raisesNotFound ∨ lk = .found false)))) := by
  refine ⟨by decide, by decide, ?_⟩
  intro w pos nid lk
  unfold staticNameCheck
  by_cases hb : w.builtinsHas nid
  · simp [hb]
  · cases lk with
    | found b =>
        cases b with
        | false => simp [hb, add_astroid_message, appendDedup]
        | true => simp [hb]
    | raisesNotFound => simp [hb, add_astroid_message, appendDedup]
    | raisesOther => simp [hb]

/-- C8: while True with only pass yields the infinite-loop diagnostic
(errorType W0701) and while True with a direct break yields none; in
general the static infinite-loop checker emits exactly when the loop test
infers primarily to the constant True and the direct loop body holds no
break statement (infinite_loop_checker.py:11-26, which scans node.body
only — the non-strict variant of the claim). -/
theorem static_infinite_loop_spec :
    ((analyze_code wLoopPass "static").errors =
      [⟨"Potential infinite loop: " ++ "while True" ++ " without a reachable " ++ "break"
          ++ " (Static)", 1, 6, 1, 10, "W0701"⟩])
    ∧ ((analyze_code wLoopBreak "static").errors = [])
    ∧ (∀ (test : ANode) (body : ANodeList),
        ((∃ d ∈ staticInfiniteLoopCheck test body [], d.errorType = "W0701") ↔
          ((∃ rest, test.inferRes = .ok (IVal.constv (PyConst.boolv true) :: rest)) ∧
            ¬ ∃ n ∈ body.toList, ∃ p, n = ANode.breakE p))) := by
  refine ⟨by decide, by decide, ?_⟩
  intro test body
  unfold staticInfiniteLoopCheck
  generalize test.inferRes = r
  rcases r with e | tv
  · simp
  · dsimp only
    by_cases hw : (match tv with | IVal.constv (PyConst.boolv true) :: _ => true | _ => false) = true
    · rw [if_pos hw]
      rw [whileTrueHead_iff] at hw
      by_cases hbk : (body.toList.any fun n => match n with | ANode.breakE _ => true | _ => false) = true
      · rw [if_neg (by simp [hbk])]
        rw [List.any_eq_true] at hbk
        rcases hbk with ⟨n, hn, hfn⟩
        rw [isBreakFn_iff] at hfn
        simp only [List.not_mem_nil, false_and, exists_false, false_iff, not_and, not_not]
        intro _
        exact ⟨n, hn, hfn⟩
      · rw [if_pos (by simp [hbk])]
        simp only [add_astroid_message, appendDedup]
        constructor
        · intro _
          rcases hw with ⟨rest, hrest⟩
          refine ⟨⟨rest, by rw [hrest]⟩, ?_⟩
          intro ⟨n, hn, p, hp⟩
          apply hbk
          rw [List.any_eq_true]
          exact ⟨n, hn, (isBreakFn_iff n).2 ⟨p, hp⟩⟩
        · intro _
          simp
    · rw [if_neg hw]
      simp only [List.not_mem_nil, false_and, exists_false, false_iff, not_and]
      intro hcontra
      rcases hcontra with ⟨rest, hrest⟩
      exact absurd ((whileTrueHead_iff tv).2 ⟨rest, by injection hrest⟩) hw

theorem indexScan_e0501 (slicePos : APos) (idx : Int) (idxStr : String) (vals : List IVal) :
    (∃ d ∈ indexScan slicePos idx idxStr vals [], d.errorType = "E0501") ↔
      ∃ v ∈ vals, ∃ len, seqLenOf v = some len ∧ (idx < -len ∨ len ≤ idx) := by
  induction vals with
  | nil => simp [indexScan]
  | cons v vs ih =>
      unfold indexScan
      by_cases hu : v = IVal.uninferable
      · rw [if_pos hu]
        rw [ih]
        constructor
        · intro ⟨x, hx, hlen⟩
          exact ⟨x, List.mem_cons_of_mem _ hx, hlen⟩
        · intro ⟨x, hx, len, hlen, hr⟩
          rcases List.mem_cons.mp hx with h | h
          · subst h
            rw [hu] at hlen
            simp [seqLenOf] at hlen
          · exact ⟨x, h, len, hlen, hr⟩
      · rw [if_neg hu]
        rcases hsl : seqLenOf v with _ | len
        · dsimp only
          rw [ih]
          constructor
          · intro ⟨x, hx, hlen⟩
            exact ⟨x, List.mem_cons_of_mem _ hx, hlen⟩
          · intro ⟨x, hx, len, hlen, hr⟩
            rcases List.mem_cons.mp hx with h | h
            · subst h
              rw [hsl] at hlen
              exact absurd hlen (by simp)
            · exact ⟨x, h, len, hlen, hr⟩
        · dsimp only
          by_cases hio : ¬(-len ≤ idx ∧ idx < len)
          · rw [if_pos hio]
            simp only [add_astroid_message, appendDedup]
            constructor
            · intro _
              exact ⟨v, List.mem_cons_self _ _, len, hsl, by omega⟩
            · intro _
              simp
          · rw [if_neg hio]
            rw [ih]
            constructor
            · intro ⟨x, hx, hlen⟩
              exact ⟨x, List.mem_cons_of_mem _ hx, hlen⟩
            · intro ⟨x, hx, len2, hlen, hr⟩
              rcases List.mem_cons.mp hx with h | h
              · subst h
                rw [hsl] at hlen
                injection hlen with hlen2
                rw [not_not] at hio
                omega
              · exact ⟨x, h, len2, hlen, hr⟩

/-- C7: static analysis of lst = [1,2,3]; print(lst[5]) yields exactly the
IndexError-tagged diagnostic E0501 at the index literal, and lst[1] yields
none; in general the static index checker emits an out-of-range E0501
diagnostic exactly when the primary inferred slice value is a constant
integer (bools included, Python ints), the subscripted expression's
inference succeeds, and some inferred value is a list, tuple, string or
bytes of known length len with the index outside [-len, len)
(index_error_checker.py:15-33). -/
theorem static_index_checker_spec :
    ((analyze_code wIdx5 "static").errors =
      [⟨"IndexError: Index 5 is out of range for sequence of length 3 (Static)",
        2, 10, 2, 11, "E0501"⟩])
    ∧ ((analyze_code wIdx1 "static").errors = [])
    ∧ (∀ (value idx : ANode),
        ((∃ d ∈ staticIndexCheck value idx [], d.errorType = "E0501") ↔
          (∃ v0 rest, idx.inferRes = .ok (v0 :: rest) ∧ v0 ≠ IVal.uninferable ∧
            ∃ n s, sliceConstInt v0 = some (n, s) ∧
              ∃ vals, value.inferRes = .ok vals ∧
                ∃ v ∈ vals, ∃ len, seqLenOf v = some len ∧ (n < -len ∨ len ≤ n)))) := by
  refine ⟨by decide, by decide, ?_⟩
  intro value idx
  unfold staticIndexCheck
  generalize idx.inferRes = rs
  rcases rs with e | sliceVals
  · simp
  · dsimp only
    rcases sliceVals with _ | ⟨v0, rest⟩
    · simp only [add_astroid_message, appendDedup]
      constructor
      · intro ⟨d, hd, hdt⟩
        simp at hd
        subst hd
        simp at hdt
      · intro ⟨v0, rest2, hcons, _⟩
        exact absurd hcons (by simp)
    · dsimp only
      by_cases hu : v0 = IVal.uninferable
      · rw [if_pos hu]
        simp only [add_astroid_message, appendDedup]
        constructor
        · intro ⟨d, hd, hdt⟩
          simp at hd
          subst hd
          simp at hdt
        · intro ⟨v0x, restx, hcons, hne, _⟩
          have h1 : v0x = v0 := by
            have := (Except.ok.injEq _ _).mp hcons.symm
            exact (List.cons.injEq _ _ _ _).mp this |>.1
          exact absurd (h1.trans hu) hne
      · rw [if_neg hu]
        rcases hci : sliceConstInt v0 with _ | ⟨n, s⟩
        · dsimp only
          simp only [List.not_mem_nil, false_and, exists_false, false_iff]
          intro ⟨v0x, restx, hcons, hne, nx, sx, hcix, _⟩
          have h1 : v0x = v0 := by
            have := (Except.ok.injEq _ _).mp hcons.symm
            exact (List.cons.injEq _ _ _ _).mp this |>.1
          rw [h1, hci] at hcix
          exact absurd hcix (by simp)
        · dsimp only
          generalize value.inferRes = rv
          rcases rv with e2 | vals
          · simp
          · dsimp only
            rw [indexScan_e0501]
            constructor
            · intro ⟨v, hv, len, hlen, hr⟩
              exact ⟨v0, rest, rfl, hu, n, s, hci, vals, rfl, v, hv, len, hlen, hr⟩
            · intro ⟨v0x, restx, hcons, hne, nx, sx, hcix, valsx, hvals, v, hv, len, hlen, hr⟩
              have h1 : v0x = v0 := by
                have := (Except.ok.injEq _ _).mp hcons.symm
                exact (List.cons.injEq _ _ _ _).mp this |>.1
              rw [h1, hci] at hcix
              have hn : nx = n := by
                have := (Option.some.injEq _ _).mp hcix.symm
                exact congrArg Prod.fst this
              have hv2 : valsx = vals := by
                exact (Except.ok.injEq _ _).mp hvals.symm
              subst hv2
              exact ⟨v, hv, len, hlen, by omega⟩

/-- C2 counterexample: when the parso error iterator yields the same
syntax error twice, the realtime result contains two diagnostics with the
same (errorType, line, column, to_line, end_column) key — the merge of
core.py:259 concatenates the parser list without any deduplication. -/
theorem realtime_dedup_cex :
    (analyze_code wDup "realtime").errors =
      [⟨"SyntaxError: invalid syntax", 1, 0, 1, 5, "SyntaxError"⟩,
       ⟨"SyntaxError: invalid syntax", 1, 0, 1, 5, "SyntaxError"⟩]
    ∧ ¬ keysNodup ((analyze_code wDup "realtime").errors) := by
  constructor
  · decide
  · decide

/-- C2 amended: diagnostics flowing through the Linter sink are
deduplicated by (errorType, line, column, to_line, end_column): no two
diagnostics of a static result share a key, and neither do two
linter-owned diagnostics of a realtime result; the parser syntax errors
merged into the realtime result are not deduplicated, so the whole
realtime list is duplicate-free exactly under the extra assumptions that
the parser list is itself key-duplicate-free and key-disjoint from the
checker diagnostics. -/
theorem dedup_by_key :
    (∀ w, keysNodup ((analyze_code w "static").errors))
    ∧ (∀ w, keysNodup (realtimeLinterErrors w))
    ∧ (∀ w, keysNodup (realtimeSyntaxErrors w) →
        (∀ d1 ∈ realtimeSyntaxErrors w, ∀ d2 ∈ realtimeLinterErrors w,
          diagKey d1 ≠ diagKey d2) →
        keysNodup ((analyze_code w "realtime").errors)) := by
  refine ⟨analyze_code_static_keysNodup, realtimeLinterErrors_keysNodup, ?_⟩
  intro w h1 h2
  unfold analyze_code
  rw [if_pos rfl]
  dsimp only
  unfold keysNodup at *
  rw [List.map_append, List.nodup_append]
  refine ⟨h1, realtimeLinterErrors_keysNodup w, ?_⟩
  intro a ha hb
  rcases List.mem_map.mp ha with ⟨d1, hd1, hk1⟩
  rcases List.mem_map.mp hb with ⟨d2, hd2, hk2⟩
  exact h2 d1 hd1 d2 hd2 (hk1.trans hk2.symm)

/-- Witness for the amended C2: on a world with one parser syntax error
and one checker diagnostic with a different key, the merged realtime
result is duplicate-free. -/
theorem dedup_by_key_witness :
    keysNodup ((analyze_code wMix "realtime").errors) :=
  dedup_by_key.2.2 wMix (by decide) (by decide)

/-- C1: for every world (a source text together with the behaviour of the
external libraries on it) and every mode string, analyze_code returns a
result whose errors field is a list of six-field diagnostic records (the
Diag type) and whose call_graph field is null or a serialized graph, and
the caught failure paths of core.py each surface as a single diagnostic
instead of an exception: a non-syntax astroid failure as
AstroidParsingError, an astroid SyntaxError as the single short-circuit
SyntaxError record, a missing parso grammar as ParsoSetupError, and a
crashed parso parse as ParsoCrashError. -/
theorem analyze_code_total_wellformed (w : World) (mode : String) :
    ((analyze_code w mode).call_graph = none
      ∨ ∃ g, (analyze_code w mode).call_graph = some g)
    ∧ (∀ msg, w.astroidParse = .otherErr msg → mode = "static" →
        (analyze_code w mode).errors =
          [⟨"Error parsing with Astroid: " ++ msg, 1, 0, 1, 1, "AstroidParsingError"⟩])
    ∧ (∀ msg lineno offset, w.astroidParse = .synErr msg lineno offset → mode = "static" →
        (analyze_code w mode).errors = [staticSyntaxDiag msg lineno offset])
    ∧ (w.grammarOk = false → mode = "realtime" →
        (analyze_code w mode).errors =
          [⟨"Parso grammar not loaded.", 1, 0, 1, 1, "ParsoSetupError"⟩])
    ∧ (w.grammarOk = true → w.parsoParseOk = false → mode = "realtime" →
        (analyze_code w mode).errors =
          [⟨"Critical Parso parsing error: " ++ w.parsoCrashMsg, 1, 0, 1, 1,
            "ParsoCrashError"⟩]) := by
  refine ⟨?_, ?_, ?_, ?_, ?_⟩
  · cases hg : (analyze_code w mode).call_graph with
    | none => exact Or.inl rfl
    | some g => exact Or.inr ⟨g, rfl⟩
  · intro msg hmsg hmode
    subst hmode
    unfold analyze_code
    rw [if_neg (by decide), if_pos rfl, hmsg]
    dsimp only
    simp [add_message, appendDedup]
  · intro msg lineno offset hmsg hmode
    subst hmode
    unfold analyze_code
    rw [if_neg (by decide), if_pos rfl, hmsg]
  · intro hg hmode
    subst hmode
    unfold analyze_code
    rw [if_pos rfl]
    dsimp only
    unfold realtimeSyntaxErrors realtimeLinterErrors
    simp [hg, add_message, appendDedup]
  · intro hg hp hmode
    subst hmode
    unfold analyze_code
    rw [if_pos rfl]
    dsimp only
    unfold realtimeSyntaxErrors realtimeLinterErrors
    simp [hg, hp, add_message, appendDedup]

/-- Witness for C1: the injected astroid failure of wTriv surfaces as the
single AstroidParsingError diagnostic. -/
theorem analyze_code_total_wellformed_witness :
    (analyze_code wTriv "static").errors =
      [⟨"Error parsing with Astroid: " ++ "boom", 1, 0, 1, 1, "AstroidParsingError"⟩] :=
  (analyze_code_total_wellformed wTriv "static").2.1 "boom" rfl rfl

end FindRuntimeErr
